import Mathlib

/-!
Verification of the image-authentication toolkit: a shallow embedding of the
forensic analyzers (foto-forensics/app.py), the Dutch-insurance decision
engine (foto-forensics/dutch_insurance_rules.py) and the ELA report
classification (flask-ui/app.py), together with theorems settling the
specification claims.  Python floats are embedded as exact rationals (ℚ);
Python `int(x)` truncation toward zero is `pyTrunc`; Python dicts read
through `.get(key, default)` become structures with those defaults, with
`Option` at the places where key presence is itself tested.
-/

namespace ImgAuth

/-- Python `int(x)`: truncation toward zero, on an exact rational. -/
def pyTrunc (q : ℚ) : ℤ := Int.tdiv q.num (q.den : ℤ)

/-- `startsWithPat pat cs` decides whether `pat` is an initial segment of
`cs` (character lists). -/
def startsWithPat : List Char → List Char → Bool
  | [], _ => true
  | _ :: _, [] => false
  | p :: ps, c :: cs => p == c && startsWithPat ps cs

/-- `containsPat pat cs` decides whether `pat` occurs contiguously inside
`cs`; this is Python's `pat in cs` on strings. -/
def containsPat (pat : List Char) : List Char → Bool
  | [] => startsWithPat pat []
  | c :: cs => startsWithPat pat (c :: cs) || containsPat pat cs

/-! ## Analyzer result records (foto-forensics/app.py)

Each structure mirrors the dict returned by one analyzer.  Field defaults
are the defaults used by the decision engine when it reads the dict with
`.get(key, default)` (an absent key behaves exactly like the default). -/

/-- Result of `extract_exif_metadata`. -/
structure MetadataResult where
  metadata : List (String × String) := []
  suspicious_indicators : List String := []
  metadata_score : ℚ := 0
deriving DecidableEq, Repr

/-- Result of `analyze_jpeg_compression`.  `estimated_quality` defaults to
100 because `_evaluate_fraud_indicators` reads it with default 100. -/
structure CompressionResult where
  compression_ratio : ℚ := 0
  estimated_quality : ℚ := 100
  artifact_density : ℚ := 0
  recompression_indicators : List String := []
  compression_score : ℚ := 0
deriving DecidableEq, Repr

/-- Result of `detect_copy_move`. -/
structure CopyMoveResult where
  copy_move_detected : Bool := false
  suspicious_regions : ℕ := 0
  confidence : ℚ := 0
  copy_move_score : ℚ := 0
deriving DecidableEq, Repr

/-- Result of `analyze_noise_patterns`. -/
structure NoiseResult where
  noise_std : ℚ := 0
  noise_mean : ℚ := 0
  noise_uniformity : ℚ := 0
  artificial_indicators : List String := []
  noise_score : ℚ := 0
deriving DecidableEq, Repr

/-- Result of `analyze_pixel_histogram`. -/
structure HistogramResult where
  total_peaks : ℕ := 0
  total_gaps : ℕ := 0
  uniformity : ℚ := 0
  histogram_indicators : List String := []
  histogram_score : ℚ := 0
deriving DecidableEq, Repr

/-- Result of `detect_ai_generated_images`. -/
structure AIResult where
  ai_detected : Bool := false
  ai_confidence : ℚ := 0
  ai_indicators : List String := []
  frequency_ratio : ℚ := 0
  texture_uniformity : ℚ := 0
  edge_density : ℚ := 0
  ai_score : ℚ := 0
deriving DecidableEq, Repr

/-- Result of `create_blockchain_timestamp`; `provenance_error` is the
error key of the provenance record on the failure path. -/
structure BlockchainResult where
  provenance_error : Option String := none
  blockchain_score : ℚ := 0
deriving DecidableEq, Repr

/-! ## The analyzers (success paths)

The image-processing front half of each analyzer (PIL / cv2 / numpy) is
abstracted as the measured quantities it produces; the indicator logic and
score computation are translated line by line from the source. -/

/-- Editing / generative software signatures checked by
`extract_exif_metadata`. -/
def editing_software_names : List String :=
  ["photoshop", "gimp", "paint.net", "canva", "midjourney", "dall-e",
   "stable diffusion"]

/-- Membership of `tag` in the metadata dict. -/
def lookupTag (m : List (String × String)) (tag : String) : Option String :=
  (m.find? (fun p => p.1 == tag)).map (fun p => p.2)

/-- `extract_exif_metadata` from foto-forensics/app.py, as a function of
the extracted tag map. -/
def extract_exif_metadata (metadata : List (String × String)) : MetadataResult :=
  let softInd : List String :=
    match lookupTag metadata ("Software") with
    | some v =>
        if editing_software_names.any
            (fun s => containsPat s.toList v.toLower.toList) then
          ["Editing software detected: " ++ v]
        else []
    | none => []
  let camera_tags : List String :=
    ["Make", "Model", "DateTime", "ExposureTime", "FNumber", "ISO"]
  let missing_tags := camera_tags.filter (fun t => (lookupTag metadata t).isNone)
  let missInd : List String :=
    if 3 < missing_tags.length then ["Missing typical camera metadata"] else []
  let tsInd : List String :=
    match lookupTag metadata ("DateTime"), lookupTag metadata ("DateTimeOriginal") with
    | some a, some b => if a ≠ b then ["Inconsistent timestamp metadata"] else []
    | _, _ => []
  let suspicious_indicators := softInd ++ missInd ++ tsInd
  { metadata := metadata
    suspicious_indicators := suspicious_indicators
    metadata_score := max 0 (100 - (suspicious_indicators.length : ℚ) * 20) }

/-- `analyze_jpeg_compression`, as a function of the file size, image
dimensions and the counted block-boundary artifacts. -/
def analyze_jpeg_compression (file_size : ℚ) (rows cols : ℕ)
    (block_artifacts : ℕ) : CompressionResult :=
  let img_area : ℚ := (rows : ℚ) * (cols : ℚ)
  let compression_ratio := file_size / img_area
  let artifact_density := (block_artifacts : ℚ) / (((rows / 8) * (cols / 8) : ℕ) : ℚ)
  let estimated_quality : ℚ := min 100 ((pyTrunc ( compression_ratio * 1000) : ℤ) : ℚ)
  let recompression_indicators : List String :=
    (if artifact_density > 1/10 then ["High blocking artifact density detected"] else [])
      ++ (if compression_ratio < 1/10 then ["Unusually high compression detected"] else [])
      ++ (if estimated_quality < 70 then ["Low quality compression suggests editing"] else [])
  { compression_ratio := compression_ratio
    estimated_quality := estimated_quality
    artifact_density := artifact_density
    recompression_indicators := recompression_indicators
    compression_score := max 0 (100 - (recompression_indicators.length : ℚ) * 25) }

/-- `detect_copy_move`, as a function of the number of ORB descriptors and
the count of suspicious self-matches. -/
def detect_copy_move (num_descriptors : ℕ) (suspicious_match_count : ℕ) :
    CopyMoveResult :=
  if num_descriptors < 10 then
    { copy_move_detected := false
      suspicious_regions := 0
      confidence := 0
      copy_move_score := 50 }
  else
    let suspicious_regions := suspicious_match_count / 5
    let confidence : ℚ := min 100 ((suspicious_regions : ℚ) * 20)
    { copy_move_detected := decide (3 < suspicious_regions)
      suspicious_regions := suspicious_regions
      confidence := confidence
      copy_move_score := max 0 (100 - confidence) }

/-- `analyze_noise_patterns`, as a function of the measured noise
statistics. -/
def analyze_noise_patterns (noise_std noise_mean noise_uniformity : ℚ) :
    NoiseResult :=
  let artificial_indicators : List String :=
    (if noise_std < 5 then ["Unusually low noise levels"] else [])
      ++ (if noise_uniformity > 2 then ["Non-uniform noise distribution"] else [])
      ++ (if noise_mean > 50 then ["Excessive noise artifacts"] else [])
  { noise_std := noise_std
    noise_mean := noise_mean
    noise_uniformity := noise_uniformity
    artificial_indicators := artificial_indicators
    noise_score := max 0 (100 - (artificial_indicators.length : ℚ) * 30) }

/-- `analyze_pixel_histogram`, as a function of the summed per-channel
peak/gap counts and the combined-histogram uniformity. -/
def analyze_pixel_histogram (total_peaks total_gaps : ℕ) (uniformity : ℚ) :
    HistogramResult :=
  let histogram_indicators : List String :=
    (if total_peaks > 15 then ["Excessive histogram peaks detected"] else [])
      ++ (if total_gaps > 20 then ["Unnatural histogram gaps detected"] else [])
      ++ (if uniformity > 3 then ["Non-uniform pixel distribution"] else [])
  { total_peaks := total_peaks
    total_gaps := total_gaps
    uniformity := uniformity
    histogram_indicators := histogram_indicators
    histogram_score := max 0 (100 - (histogram_indicators.length : ℚ) * 25) }

/-- `detect_ai_generated_images`, as a function of the six measured
signals.  `face_symmetries` holds one correlation per detected face whose
mirrored halves matched in shape; each one above 0.9 appends one facial
symmetry indicator, exactly as the source loop does. -/
def detect_ai_generated_images ( freq_ratio h_corr v_corr lbp_uniformity
    edge_density : ℚ) (has_color : Bool) (hue_peaks : ℕ)
    (face_symmetries : List ℚ) : AIResult :=
  let ai_indicators : List String :=
    (if freq_ratio < 3/10 then ["Unnatural frequency domain patterns detected"] else [])
      ++ (if h_corr > 95/100 ∨ v_corr > 95/100 then
            ["Excessive pixel correlation suggests AI generation"] else [])
      ++ (if lbp_uniformity > 8/10 then
            ["High texture uniformity suggests AI generation"] else [])
      ++ (if edge_density < 5/100 ∨ edge_density > 3/10 then
            ["Unnatural edge patterns detected"] else [])
      ++ (if has_color = true ∧ hue_peaks < 5 then
            ["Limited color palette suggests AI generation"] else [])
      ++ ((face_symmetries.filter (fun s => s > 9/10)).map
            (fun _ => "Unnatural facial symmetry detected"))
  let ai_confidence : ℚ := min 100 ((ai_indicators.length : ℚ) * 20)
  { ai_detected := decide (2 ≤ ai_indicators.length)
    ai_confidence := ai_confidence
    ai_indicators := ai_indicators
    frequency_ratio := freq_ratio
    texture_uniformity := lbp_uniformity
    edge_density := edge_density
    ai_score := max 0 (100 - ai_confidence) }

/-- `create_blockchain_timestamp` success path: always scores 100. -/
def create_blockchain_timestamp : BlockchainResult :=
  { provenance_error := none, blockchain_score := 100 }

/-! ## The analyzers' error paths (the `except` branches) -/

/-- Error path of `extract_exif_metadata`. -/
def extract_exif_metadata_error (e : String) : MetadataResult :=
  { metadata := []
    suspicious_indicators := ["Error reading metadata: " ++ e]
    metadata_score := 0 }

/-- Error path of `analyze_jpeg_compression`. -/
def analyze_jpeg_compression_error (e : String) : CompressionResult :=
  { compression_ratio := 0
    estimated_quality := 0
    artifact_density := 0
    recompression_indicators := ["Error analyzing compression: " ++ e]
    compression_score := 0 }

/-- Error path of `detect_copy_move`: the source's `except` branch returns
only the four data fields and discards the caught exception entirely. -/
def detect_copy_move_error (_e : String) : CopyMoveResult :=
  { copy_move_detected := false
    suspicious_regions := 0
    confidence := 0
    copy_move_score := 50 }

/-- Error path of `analyze_noise_patterns`. -/
def analyze_noise_patterns_error (e : String) : NoiseResult :=
  { noise_std := 0
    noise_mean := 0
    noise_uniformity := 0
    artificial_indicators := ["Error analyzing noise: " ++ e]
    noise_score := 0 }

/-- Error path of `analyze_pixel_histogram`. -/
def analyze_pixel_histogram_error (e : String) : HistogramResult :=
  { total_peaks := 0
    total_gaps := 0
    uniformity := 0
    histogram_indicators := ["Error analyzing histogram: " ++ e]
    histogram_score := 0 }

/-- Error path of `detect_ai_generated_images`. -/
def detect_ai_generated_images_error (e : String) : AIResult :=
  { ai_detected := false
    ai_confidence := 0
    ai_indicators := ["Error in AI detection: " ++ e]
    frequency_ratio := 0
    texture_uniformity := 0
    edge_density := 0
    ai_score := 50 }

/-- Error path of `create_blockchain_timestamp`: error recorded inside the
provenance record, score 0. -/
def create_blockchain_timestamp_error (e : String) : BlockchainResult :=
  { provenance_error := some e, blockchain_score := 0 }

/-! ## The decision engine (foto-forensics/dutch_insurance_rules.py)

`DutchInsuranceAuthenticityRules`.  The `analysis_results` dict is the
`AnalysisResults` structure below: each of the seven analysis keys is an
`Option` (membership of the key is tested by `_calculate_weighted_score`),
and reading an absent key through `.get(key, {})` yields the
default-valued record `{}`. -/

/-- The `analysis_results` dict passed to `determine_authenticity`. -/
structure AnalysisResults where
  ai_analysis : Option AIResult := none
  metadata_analysis : Option MetadataResult := none
  compression_analysis : Option CompressionResult := none
  copy_move_analysis : Option CopyMoveResult := none
  noise_analysis : Option NoiseResult := none
  histogram_analysis : Option HistogramResult := none
  blockchain_analysis : Option BlockchainResult := none
  overall_score : Option ℚ := none
deriving DecidableEq, Repr

/-- Result of `_evaluate_ai_content`. -/
structure AIDecision where
  is_critical : Bool
  result : String
  reason : String
  indicators : List String
  compliance_note : String := ""
deriving DecidableEq, Repr

/-- Result of `_evaluate_fraud_indicators`. -/
structure FraudDecision where
  is_critical : Bool
  result : String
  critical_flags : List String
  suspicious_flags : List String
deriving DecidableEq, Repr

/-- Result of `_apply_insurance_rules`. -/
structure FinalDecision where
  result : String
  confidence : ℤ
  reasoning : List String
  critical_flags : List String
  requires_human_review : Bool
deriving DecidableEq, Repr

/-- The verdict dict returned by `determine_authenticity` (the timestamp
and the constant compliance booleans are omitted). -/
structure Verdict where
  authenticity_result : String
  confidence_score : ℤ
  weighted_score : ℚ
  decision_reasoning : List String
  critical_flags : List String
  requires_human_review : Bool
  rule_version : String := "1.0_dutch_insurance"
deriving DecidableEq, Repr

/-- One entry of the decision log (`_log_decision`), minus the timestamp. -/
structure AuditLogEntry where
  decision : String
  confidence : ℤ
  critical_flags : List String
  human_review_required : Bool
  ai_confidence : ℚ
  weighted_score : ℚ
deriving DecidableEq, Repr

/-- `CRITICAL_AI_CONFIDENCE_THRESHOLD`. -/
def CRITICAL_AI_CONFIDENCE_THRESHOLD : ℚ := 40

/-- `MINIMUM_AUTHENTIC_SCORE`. -/
def MINIMUM_AUTHENTIC_SCORE : ℚ := 75

/-- `SUSPICIOUS_THRESHOLD`. -/
def SUSPICIOUS_THRESHOLD : ℚ := 50

/-- The substring test `'editing software' in indicator.lower()` used by
`_evaluate_fraud_indicators` on each metadata suspicious indicator. -/
def mentions_editing_software (ind : String) : Bool :=
  containsPat ("editing software".toList) (ind.toLower.toList)

/-- `_evaluate_ai_content`.  The source interpolates measured values into
its reason strings; the fixed text is kept, the interpolations dropped. -/
def evaluate_ai_content (ai : AIResult) : AIDecision :=
  if CRITICAL_AI_CONFIDENCE_THRESHOLD ≤ ai.ai_confidence then
    { is_critical := true
      result := "NON_AUTHENTIC"
      reason := "AI-generated content detected"
      indicators := ai.ai_indicators
      compliance_note := "AI-generated images not acceptable for insurance claims per DNB guidelines" }
  else if ai.ai_detected = true ∨ 2 ≤ ai.ai_indicators.length then
    { is_critical := true
      result := "SUSPICIOUS"
      reason := "Multiple AI indicators detected"
      indicators := ai.ai_indicators
      compliance_note := "Requires human expert review per EU AI Act requirements" }
  else
    { is_critical := false
      result := "PASSED"
      reason := "No significant AI generation indicators"
      indicators := ai.ai_indicators }

/-- The `critical_flags` list built by `_evaluate_fraud_indicators`: the
metadata editing-software check and the copy-move check, in source
order.  Absent analyses are read through `.get(key, {})`. -/
def fraud_critical_flags (r : AnalysisResults) : List String :=
  (if (r.metadata_analysis.getD {}).suspicious_indicators.any mentions_editing_software then
     ["Professional editing software detected in metadata"] else [])
    ++ (if (r.copy_move_analysis.getD {}).copy_move_detected then
          ["Copy-move manipulation detected"] else [])

/-- The `suspicious_flags` list built by `_evaluate_fraud_indicators`:
the low-quality-compression check and the artificial-noise check, in
source order. -/
def fraud_suspicious_flags (r : AnalysisResults) : List String :=
  (if (r.compression_analysis.getD {}).estimated_quality < 60 then
     ["Low quality compression suggests multiple edits"] else [])
    ++ (if 2 ≤ (r.noise_analysis.getD {}).artificial_indicators.length then
          ["Multiple artificial noise patterns detected"] else [])

/-- `_evaluate_fraud_indicators`; its two local flag lists are the two
named definitions above. -/
def evaluate_fraud_indicators (r : AnalysisResults) : FraudDecision :=
  if fraud_critical_flags r ≠ [] then
    { is_critical := true, result := "FRAUD_INDICATORS"
      critical_flags := fraud_critical_flags r
      suspicious_flags := fraud_suspicious_flags r }
  else if 2 ≤ (fraud_suspicious_flags r).length then
    { is_critical := false, result := "SUSPICIOUS"
      critical_flags := fraud_critical_flags r
      suspicious_flags := fraud_suspicious_flags r }
  else
    { is_critical := false, result := "PASSED"
      critical_flags := fraud_critical_flags r
      suspicious_flags := fraud_suspicious_flags r }

/-- One iteration of the accumulation loop in `_calculate_weighted_score`:
`acc` is the pair (weighted_sum, total_weight); a present analysis adds
its score times its weight and the weight itself. -/
def weight_step (acc : ℚ × ℚ) (o : Option ℚ) (w : ℚ) : ℚ × ℚ :=
  match o with
  | some s => (acc.1 + s * w, acc.2 + w)
  | none => acc

/-- `_calculate_weighted_score`, iterating `ANALYSIS_WEIGHTS` in its
source order. -/
def calculate_weighted_score (r : AnalysisResults) : ℚ :=
  let acc := weight_step (0, 0) (r.ai_analysis.map AIResult.ai_score) (35/100)
  let acc := weight_step acc (r.metadata_analysis.map MetadataResult.metadata_score) (20/100)
  let acc := weight_step acc (r.compression_analysis.map CompressionResult.compression_score) (15/100)
  let acc := weight_step acc (r.copy_move_analysis.map CopyMoveResult.copy_move_score) (10/100)
  let acc := weight_step acc (r.noise_analysis.map NoiseResult.noise_score) (10/100)
  let acc := weight_step acc (r.histogram_analysis.map HistogramResult.histogram_score) (5/100)
  let acc := weight_step acc (r.blockchain_analysis.map BlockchainResult.blockchain_score) (5/100)
  if 0 < acc.2 then acc.1 / acc.2 else 0

/-- `_apply_insurance_rules`.  The source interpolates the weighted score
into its reasoning strings; the fixed text is kept. -/
def apply_insurance_rules (ai_decision : AIDecision)
    (fraud_decision : FraudDecision) (weighted_score : ℚ) : FinalDecision :=
  if ai_decision.is_critical = true ∧ ai_decision.result = "NON_AUTHENTIC" then
    { result := "NON_AUTHENTIC"
      confidence := 95
      reasoning := [ai_decision.reason, ai_decision.compliance_note]
      critical_flags := ["AI_GENERATED_CONTENT"]
      requires_human_review := false }
  else if fraud_decision.is_critical = true then
    { result := "NON_AUTHENTIC"
      confidence := 90
      reasoning := "Critical fraud indicators detected" :: fraud_decision.critical_flags
      critical_flags := fraud_decision.critical_flags
      requires_human_review := true }
  else
    let ai_suspicious : Bool :=
      ai_decision.is_critical && decide (ai_decision.result = "SUSPICIOUS")
    let requires0 : Bool := ai_suspicious
    let reasoning0 : List String := if ai_suspicious then [ai_decision.reason] else []
    let critical_flags : List String :=
      if ai_suspicious then ["SUSPICIOUS_AI_CONTENT"] else []
    let step4 : String × ℤ × String × Bool :=
      if MINIMUM_AUTHENTIC_SCORE ≤ weighted_score ∧ critical_flags = [] then
        ("AUTHENTIC", min 95 (pyTrunc weighted_score),
         "Weighted authenticity score", requires0)
      else if SUSPICIOUS_THRESHOLD ≤ weighted_score then
        ("SUSPICIOUS", pyTrunc weighted_score,
         "Weighted score indicates suspicious content", true)
      else
        ("NON_AUTHENTIC", max 10 (pyTrunc (100 - weighted_score)),
         "Low weighted score indicates manipulation", requires0)
    let total_suspicious :=
      fraud_decision.suspicious_flags.length + ai_decision.indicators.length
    let requires1 : Bool := if 3 ≤ total_suspicious then true else step4.2.2.2
    let reasoning1 : List String :=
      reasoning0 ++ [step4.2.2.1]
        ++ (if 3 ≤ total_suspicious then
              ["Multiple suspicious indicators require expert review"] else [])
    { result := step4.1
      confidence := step4.2.1
      reasoning := reasoning1
      critical_flags := critical_flags
      requires_human_review := requires1 }

/-- The final decision computed by `determine_authenticity` steps 1-4. -/
def final_decision_of (r : AnalysisResults) : FinalDecision :=
  apply_insurance_rules (evaluate_ai_content (r.ai_analysis.getD {}))
    (evaluate_fraud_indicators r) (calculate_weighted_score r)

/-- The audit entry built by `_log_decision`: note the `weighted_score`
field is read from the analysis-results dict key `overall_score` with
default 0, not from the computed weighted score. -/
def decision_entry (r : AnalysisResults) : AuditLogEntry :=
  { decision := (final_decision_of r).result
    confidence := (final_decision_of r).confidence
    critical_flags := (final_decision_of r).critical_flags
    human_review_required := (final_decision_of r).requires_human_review
    ai_confidence := (r.ai_analysis.getD {}).ai_confidence
    weighted_score := r.overall_score.getD 0 }

/-- `_log_decision`: appends one entry to the decision log. -/
def log_decision (r : AnalysisResults) (log : List AuditLogEntry) :
    List AuditLogEntry :=
  log ++ [decision_entry r]

/-- `determine_authenticity`: returns the verdict dict and the decision
log after the audit append. -/
def determine_authenticity (r : AnalysisResults) (log : List AuditLogEntry) :
    Verdict × List AuditLogEntry :=
  let final_decision := final_decision_of r
  let weighted_score := calculate_weighted_score r
  ({ authenticity_result := final_decision.result
     confidence_score := final_decision.confidence
     weighted_score := weighted_score
     decision_reasoning := final_decision.reasoning
     critical_flags := final_decision.critical_flags
     requires_human_review := final_decision.requires_human_review },
   log_decision r log)

/-- `get_audit_trail`: returns a copy of the decision log. -/
def get_audit_trail (log : List AuditLogEntry) : List AuditLogEntry := log

/-- N invocations of `determine_authenticity` in sequence, threading the
decision log. -/
def run_batch (rs : List AnalysisResults) (log : List AuditLogEntry) :
    List AuditLogEntry :=
  rs.foldl (fun l r => (determine_authenticity r l).2) log

/-- The `all_analysis_results` dict built by the `/analyze` pipeline
(foto-forensics/app.py `analyze_image`): exactly the seven analyzer
records, keyed by analyzer name — in particular no `overall_score` key. -/
def pipeline_analysis_results (md : MetadataResult) (comp : CompressionResult)
    (cm : CopyMoveResult) (nz : NoiseResult) (hg : HistogramResult)
    (bc : BlockchainResult) (ai : AIResult) : AnalysisResults :=
  { ai_analysis := some ai
    metadata_analysis := some md
    compression_analysis := some comp
    copy_move_analysis := some cm
    noise_analysis := some nz
    histogram_analysis := some hg
    blockchain_analysis := some bc
    overall_score := none }

/-! ## The ELA report classification (flask-ui/app.py, upload_file)

The classification applied to the ELA image statistics; the measured
quantities (mean, std, high-variance percentage, edge density) are the
inputs. -/

/-- The ELA report fields the classification decides. -/
structure ElaReport where
  result : String
  certainty : ℤ
deriving DecidableEq, Repr

/-- Lines 504-517 of flask-ui/app.py: the factor computation and the
threshold classification.  `edge_factor` is computed by the source but
used by neither certainty formula. -/
def ela_classify (mean_val std_val high_variance_percent edge_density : ℚ) :
    ElaReport :=
  let mean_factor := min 40 ((mean_val / 255) * 100)
  let std_factor := min 20 ((std_val / 50) * 20)
  let variance_factor := min 20 (high_variance_percent * 2)
  let _edge_factor := min 10 (edge_density / 10)
  if mean_val > 15 then
    { result := "Manipulated"
      certainty := min 100 (pyTrunc (50 + mean_factor + std_factor + variance_factor)) }
  else
    { result := "Authentic"
      certainty := max 30 (pyTrunc (100 - mean_factor - std_factor/2 - variance_factor/2)) }

/-! ## Helper lemmas -/

/-- Under the AI-override threshold, `_evaluate_ai_content` returns the
critical NON_AUTHENTIC decision. -/
theorem evaluate_ai_content_critical (ai : AIResult)
    (h : CRITICAL_AI_CONFIDENCE_THRESHOLD ≤ ai.ai_confidence) :
    evaluate_ai_content ai =
      { is_critical := true
        result := "NON_AUTHENTIC"
        reason := "AI-generated content detected"
        indicators := ai.ai_indicators
        compliance_note := "AI-generated images not acceptable for insurance claims per DNB guidelines" } := by
  unfold evaluate_ai_content
  rw [if_pos h]

/-- Below the threshold, the AI decision's result is SUSPICIOUS or
PASSED, never NON_AUTHENTIC. -/
theorem evaluate_ai_content_below (ai : AIResult)
    (h : ai.ai_confidence < CRITICAL_AI_CONFIDENCE_THRESHOLD) :
    (evaluate_ai_content ai).result = "SUSPICIOUS" ∨
      (evaluate_ai_content ai).result = "PASSED" := by
  unfold evaluate_ai_content
  rw [if_neg (not_le.mpr h)]
  split
  · exact Or.inl rfl
  · exact Or.inr rfl

/-- Below the threshold, the AI decision keeps the analyzer's indicator
list. -/
theorem evaluate_ai_content_indicators (ai : AIResult) :
    (evaluate_ai_content ai).indicators = ai.ai_indicators := by
  unfold evaluate_ai_content
  split
  · rfl
  split
  · rfl
  · rfl

/-- `_evaluate_fraud_indicators` always reports exactly the two flag
lists it builds. -/
theorem evaluate_fraud_indicators_flags (r : AnalysisResults) :
    (evaluate_fraud_indicators r).critical_flags = fraud_critical_flags r ∧
      (evaluate_fraud_indicators r).suspicious_flags = fraud_suspicious_flags r := by
  unfold evaluate_fraud_indicators
  split
  · exact ⟨rfl, rfl⟩
  split
  · exact ⟨rfl, rfl⟩
  · exact ⟨rfl, rfl⟩

/-- `_evaluate_fraud_indicators` is critical exactly when a critical flag
was collected. -/
theorem evaluate_fraud_indicators_critical (r : AnalysisResults) :
    (evaluate_fraud_indicators r).is_critical = true ↔
      fraud_critical_flags r ≠ [] := by
  unfold evaluate_fraud_indicators
  split
  next hne => simpa using hne
  next hne =>
    have hnil : fraud_critical_flags r = [] := not_not.mp hne
    split <;> simp [hnil]

/-! ## C1 -/

/-- C1: whenever the AI analysis reports `ai_confidence` at or above 40,
`determine_authenticity` returns the NON_AUTHENTIC verdict with
confidence 95, no human review, and critical flags exactly
AI_GENERATED_CONTENT, regardless of every other analyzer's output. -/
theorem C1_ai_override (r : AnalysisResults) (log : List AuditLogEntry)
    (h : CRITICAL_AI_CONFIDENCE_THRESHOLD ≤ (r.ai_analysis.getD {}).ai_confidence) :
    (determine_authenticity r log).1.authenticity_result = "NON_AUTHENTIC" ∧
      (determine_authenticity r log).1.confidence_score = 95 ∧
      (determine_authenticity r log).1.requires_human_review = false ∧
      (determine_authenticity r log).1.critical_flags = ["AI_GENERATED_CONTENT"] := by
  unfold determine_authenticity final_decision_of
  rw [evaluate_ai_content_critical _ h]
  unfold apply_insurance_rules
  simp

/-- AI analysis used by the C1 witness. -/
def C1_ai : AIResult :=
  { ai_detected := false, ai_confidence := 60, ai_indicators := [], ai_score := 0 }

/-- Analysis-results dict used by the C1 witness. -/
def C1_input : AnalysisResults :=
  { ai_analysis := some C1_ai }

/-- C1 witness: the override at `ai_confidence = 60`. -/
theorem C1_ai_override_witness :
    (determine_authenticity C1_input []).1.authenticity_result = "NON_AUTHENTIC" ∧
      (determine_authenticity C1_input []).1.confidence_score = 95 ∧
      (determine_authenticity C1_input []).1.requires_human_review = false ∧
      (determine_authenticity C1_input []).1.critical_flags = ["AI_GENERATED_CONTENT"] :=
  C1_ai_override C1_input []
    (by norm_num [C1_input, C1_ai, CRITICAL_AI_CONFIDENCE_THRESHOLD])

/-! ## C2 -/

/-- C2: when the AI override does not fire and the metadata analysis
flags editing software or copy-move is detected,
`determine_authenticity` returns NON_AUTHENTIC with confidence 90, human
review required, and critical flags exactly the triggered fraud
indicators — whatever the weighted score is. -/
theorem C2_fraud_override (r : AnalysisResults) (log : List AuditLogEntry)
    (hai : (r.ai_analysis.getD {}).ai_confidence < CRITICAL_AI_CONFIDENCE_THRESHOLD)
    (hfraud : (r.metadata_analysis.getD {}).suspicious_indicators.any mentions_editing_software = true
      ∨ (r.copy_move_analysis.getD {}).copy_move_detected = true) :
    (determine_authenticity r log).1.authenticity_result = "NON_AUTHENTIC" ∧
      (determine_authenticity r log).1.confidence_score = 90 ∧
      (determine_authenticity r log).1.requires_human_review = true ∧
      (determine_authenticity r log).1.critical_flags = fraud_critical_flags r := by
  have hne : fraud_critical_flags r ≠ [] := by
    unfold fraud_critical_flags
    rcases hfraud with h | h <;> simp [h]
  have hcrit : (evaluate_fraud_indicators r).is_critical = true :=
    (evaluate_fraud_indicators_critical r).mpr hne
  have hres := evaluate_ai_content_below _ hai
  unfold determine_authenticity final_decision_of apply_insurance_rules
  have hcond : ¬ ((evaluate_ai_content (r.ai_analysis.getD {})).is_critical = true ∧
      (evaluate_ai_content (r.ai_analysis.getD {})).result = "NON_AUTHENTIC") := by
    rintro ⟨-, hr2⟩
    rcases hres with h | h <;> simp [h] at hr2
  rw [if_neg hcond, if_pos hcrit]
  exact ⟨rfl, rfl, rfl, (evaluate_fraud_indicators_flags r).1⟩

/-- Analysis results used by the C2 witness: no AI signal, copy-move
detected, all scores high enough that the weighted score alone would be
AUTHENTIC. -/
def C2_input : AnalysisResults :=
  pipeline_analysis_results { metadata_score := 100 } { compression_score := 100 }
    { copy_move_detected := true, copy_move_score := 100 } { noise_score := 100 }
    { histogram_score := 100 } { blockchain_score := 100 } { ai_score := 100 }

/-- C2 witness: copy-move detection overrides a perfect weighted score. -/
theorem C2_fraud_override_witness :
    (determine_authenticity C2_input []).1.authenticity_result = "NON_AUTHENTIC" ∧
      (determine_authenticity C2_input []).1.confidence_score = 90 ∧
      (determine_authenticity C2_input []).1.requires_human_review = true ∧
      (determine_authenticity C2_input []).1.critical_flags = fraud_critical_flags C2_input :=
  C2_fraud_override C2_input []
    (by norm_num [C2_input, pipeline_analysis_results, CRITICAL_AI_CONFIDENCE_THRESHOLD])
    (Or.inr (by norm_num [C2_input, pipeline_analysis_results]))

/-! ## C4 -/

/-- C4: with all seven analyses present, the weighted score is the fixed
linear combination of the seven scores with the documented weights, and
those weights sum to 1. -/
theorem C4_weighted_linear (r : AnalysisResults) (ai : AIResult)
    (md : MetadataResult) (comp : CompressionResult) (cm : CopyMoveResult)
    (nz : NoiseResult) (hg : HistogramResult) (bc : BlockchainResult)
    (h1 : r.ai_analysis = some ai) (h2 : r.metadata_analysis = some md)
    (h3 : r.compression_analysis = some comp) (h4 : r.copy_move_analysis = some cm)
    (h5 : r.noise_analysis = some nz) (h6 : r.histogram_analysis = some hg)
    (h7 : r.blockchain_analysis = some bc) :
    calculate_weighted_score r =
      (35/100) * ai.ai_score + (20/100) * md.metadata_score
        + (15/100) * comp.compression_score + (10/100) * cm.copy_move_score
        + (10/100) * nz.noise_score + (5/100) * hg.histogram_score
        + (5/100) * bc.blockchain_score ∧
      (35/100 : ℚ) + 20/100 + 15/100 + 10/100 + 10/100 + 5/100 + 5/100 = 1 := by
  refine ⟨?_, by norm_num⟩
  simp only [calculate_weighted_score, weight_step, h1, h2, h3, h4, h5, h6, h7,
    Option.map_some']
  norm_num
  ring

/-- All-scores-100 input for the C4 witness. -/
def C4_input : AnalysisResults :=
  pipeline_analysis_results { metadata_score := 100 } { compression_score := 100 }
    { copy_move_score := 100 } { noise_score := 100 } { histogram_score := 100 }
    { blockchain_score := 100 } { ai_score := 100 }

/-- C4 witness: all seven scores 100 give weighted score 100. -/
theorem C4_weighted_linear_witness : calculate_weighted_score C4_input = 100 := by
  have h := C4_weighted_linear C4_input _ _ _ _ _ _ _ rfl rfl rfl rfl rfl rfl rfl
  rw [h.1]
  norm_num

/-! ## C5 -/

/-- Bound for scores of the shape `max(0, 100 - n*k)`. -/
theorem score_formula_range (n : ℕ) (k : ℚ) (hk : 0 ≤ k) :
    0 ≤ max 0 (100 - (n : ℚ) * k) ∧ max 0 (100 - (n : ℚ) * k) ≤ 100 := by
  constructor
  · exact le_max_left 0 _
  · have : (0:ℚ) ≤ (n : ℚ) * k := mul_nonneg (Nat.cast_nonneg n) hk
    exact max_le (by norm_num) (by linarith)

/-- Bound for scores of the shape `max(0, 100 - c)` with `c ∈ [0,100]`. -/
theorem score_complement_range (c : ℚ) (h0 : 0 ≤ c) :
    0 ≤ max 0 (100 - c) ∧ max 0 (100 - c) ≤ 100 := by
  exact ⟨le_max_left 0 _, max_le (by norm_num) (by linarith)⟩

/-- The per-analysis hypothesis of the weighted-score bound: every
present analysis carries a score in [0,100]. -/
def scores_in_range (r : AnalysisResults) : Prop :=
  (∀ a, r.ai_analysis = some a → 0 ≤ a.ai_score ∧ a.ai_score ≤ 100) ∧
    (∀ a, r.metadata_analysis = some a → 0 ≤ a.metadata_score ∧ a.metadata_score ≤ 100) ∧
    (∀ a, r.compression_analysis = some a → 0 ≤ a.compression_score ∧ a.compression_score ≤ 100) ∧
    (∀ a, r.copy_move_analysis = some a → 0 ≤ a.copy_move_score ∧ a.copy_move_score ≤ 100) ∧
    (∀ a, r.noise_analysis = some a → 0 ≤ a.noise_score ∧ a.noise_score ≤ 100) ∧
    (∀ a, r.histogram_analysis = some a → 0 ≤ a.histogram_score ∧ a.histogram_score ≤ 100) ∧
    (∀ a, r.blockchain_analysis = some a → 0 ≤ a.blockchain_score ∧ a.blockchain_score ≤ 100)

/-- Transfer a per-record score bound through `Option.map`. -/
theorem map_score_range {α : Type} (o : Option α) (f : α → ℚ)
    (h : ∀ a, o = some a → 0 ≤ f a ∧ f a ≤ 100) :
    ∀ s, o.map f = some s → 0 ≤ s ∧ s ≤ 100 := by
  intro s hs
  cases o with
  | none => simp at hs
  | some a =>
    simp only [Option.map_some', Option.some.injEq] at hs
    rw [← hs]
    exact h a rfl

/-- One accumulation step preserves the invariant of
`_calculate_weighted_score`: nonnegative total weight and
`0 ≤ weighted_sum ≤ 100 * total_weight`. -/
theorem weight_step_invariant (o : Option ℚ) (w : ℚ) (acc : ℚ × ℚ)
    (hw : 0 ≤ w) (ho : ∀ s, o = some s → 0 ≤ s ∧ s ≤ 100)
    (h : 0 ≤ acc.2 ∧ 0 ≤ acc.1 ∧ acc.1 ≤ 100 * acc.2) :
    0 ≤ (weight_step acc o w).2 ∧ 0 ≤ (weight_step acc o w).1 ∧
      (weight_step acc o w).1 ≤ 100 * (weight_step acc o w).2 := by
  obtain ⟨h2, h1, h12⟩ := h
  cases o with
  | none => exact ⟨h2, h1, h12⟩
  | some s =>
    obtain ⟨hs0, hs100⟩ := ho s rfl
    have hsw0 : 0 ≤ s * w := mul_nonneg hs0 hw
    have hsw100 : s * w ≤ 100 * w := mul_le_mul_of_nonneg_right hs100 hw
    exact ⟨by simpa [weight_step] using by linarith,
      by simpa [weight_step] using by linarith,
      by simpa [weight_step] using by linarith⟩

/-- The weighted score is in [0,100] whenever all present scores are. -/
theorem weighted_score_range (r : AnalysisResults) (h : scores_in_range r) :
    0 ≤ calculate_weighted_score r ∧ calculate_weighted_score r ≤ 100 := by
  obtain ⟨ha, hm, hc, hcm, hn, hh, hb⟩ := h
  have I0 : (0:ℚ) ≤ (((0:ℚ), (0:ℚ)) : ℚ × ℚ).2 ∧ (0:ℚ) ≤ (((0:ℚ), (0:ℚ)) : ℚ × ℚ).1 ∧
      (((0:ℚ), (0:ℚ)) : ℚ × ℚ).1 ≤ 100 * (((0:ℚ), (0:ℚ)) : ℚ × ℚ).2 := by norm_num
  have I1 := weight_step_invariant (r.ai_analysis.map AIResult.ai_score) (35/100) _
    (by norm_num) (map_score_range _ _ ha) I0
  have I2 := weight_step_invariant (r.metadata_analysis.map MetadataResult.metadata_score)
    (20/100) _ (by norm_num) (map_score_range _ _ hm) I1
  have I3 := weight_step_invariant (r.compression_analysis.map CompressionResult.compression_score)
    (15/100) _ (by norm_num) (map_score_range _ _ hc) I2
  have I4 := weight_step_invariant (r.copy_move_analysis.map CopyMoveResult.copy_move_score)
    (10/100) _ (by norm_num) (map_score_range _ _ hcm) I3
  have I5 := weight_step_invariant (r.noise_analysis.map NoiseResult.noise_score)
    (10/100) _ (by norm_num) (map_score_range _ _ hn) I4
  have I6 := weight_step_invariant (r.histogram_analysis.map HistogramResult.histogram_score)
    (5/100) _ (by norm_num) (map_score_range _ _ hh) I5
  have I7 := weight_step_invariant (r.blockchain_analysis.map BlockchainResult.blockchain_score)
    (5/100) _ (by norm_num) (map_score_range _ _ hb) I6
  simp only [calculate_weighted_score]
  split
  next hpos =>
    exact ⟨div_nonneg I7.2.1 (le_of_lt hpos),
      (div_le_iff₀ hpos).mpr (by linarith [I7.2.2])⟩
  next => norm_num

/-- C5: every analyzer's score, on the normal path and on the internal
error path, lies in [0,100]; and the weighted score computed from any
scores in [0,100] also lies in [0,100]. -/
theorem C5_score_ranges :
    (∀ m, 0 ≤ (extract_exif_metadata m).metadata_score ∧
        (extract_exif_metadata m).metadata_score ≤ 100) ∧
    (∀ fs rows cols arts, 0 ≤ (analyze_jpeg_compression fs rows cols arts).compression_score ∧
        (analyze_jpeg_compression fs rows cols arts).compression_score ≤ 100) ∧
    (∀ nd smc, 0 ≤ (detect_copy_move nd smc).copy_move_score ∧
        (detect_copy_move nd smc).copy_move_score ≤ 100) ∧
    (∀ ns nm nu, 0 ≤ (analyze_noise_patterns ns nm nu).noise_score ∧
        (analyze_noise_patterns ns nm nu).noise_score ≤ 100) ∧
    (∀ tp tg u, 0 ≤ (analyze_pixel_histogram tp tg u).histogram_score ∧
        (analyze_pixel_histogram tp tg u).histogram_score ≤ 100) ∧
    (∀ fr hc vc lu ed col hp fsym,
        0 ≤ (detect_ai_generated_images fr hc vc lu ed col hp fsym).ai_score ∧
        (detect_ai_generated_images fr hc vc lu ed col hp fsym).ai_score ≤ 100) ∧
    (0 ≤ create_blockchain_timestamp.blockchain_score ∧
        create_blockchain_timestamp.blockchain_score ≤ 100) ∧
    (∀ e, (extract_exif_metadata_error e).metadata_score = 0 ∧
        (analyze_jpeg_compression_error e).compression_score = 0 ∧
        (detect_copy_move_error e).copy_move_score = 50 ∧
        (analyze_noise_patterns_error e).noise_score = 0 ∧
        (analyze_pixel_histogram_error e).histogram_score = 0 ∧
        (detect_ai_generated_images_error e).ai_score = 50 ∧
        (create_blockchain_timestamp_error e).blockchain_score = 0) ∧
    (∀ r, scores_in_range r →
        0 ≤ calculate_weighted_score r ∧ calculate_weighted_score r ≤ 100) := by
  refine ⟨?_, ?_, ?_, ?_, ?_, ?_, ?_, ?_, fun r h => weighted_score_range r h⟩
  · intro m
    exact score_formula_range _ 20 (by norm_num)
  · intro fs rows cols arts
    exact score_formula_range _ 25 (by norm_num)
  · intro nd smc
    unfold detect_copy_move
    split
    · norm_num
    · exact score_complement_range _ (le_min (by norm_num)
        (mul_nonneg (Nat.cast_nonneg _) (by norm_num)))
  · intro ns nm nu
    exact score_formula_range _ 30 (by norm_num)
  · intro tp tg u
    exact score_formula_range _ 25 (by norm_num)
  · intro fr hc vc lu ed col hp fsym
    exact score_complement_range _ (le_min (by norm_num)
      (mul_nonneg (Nat.cast_nonneg _) (by norm_num)))
  · norm_num [create_blockchain_timestamp]
  · intro e
    refine ⟨rfl, rfl, rfl, rfl, rfl, rfl, rfl⟩

/-- C5 witness: the weighted-score bound applied to the all-100 input. -/
theorem C5_score_ranges_witness :
    0 ≤ calculate_weighted_score C4_input ∧ calculate_weighted_score C4_input ≤ 100 := by
  refine C5_score_ranges.2.2.2.2.2.2.2.2 C4_input ?_
  refine ⟨?_, ?_, ?_, ?_, ?_, ?_, ?_⟩ <;>
    · intro a h
      simp only [C4_input, pipeline_analysis_results, Option.some.injEq] at h
      rw [← h]
      norm_num

/-! ## C3 -/

/-- Shared helper: the linear form of the weighted score when all seven
analyses are present. -/
theorem weighted_score_all_present (r : AnalysisResults) (ai : AIResult)
    (md : MetadataResult) (comp : CompressionResult) (cm : CopyMoveResult)
    (nz : NoiseResult) (hg : HistogramResult) (bc : BlockchainResult)
    (h1 : r.ai_analysis = some ai) (h2 : r.metadata_analysis = some md)
    (h3 : r.compression_analysis = some comp) (h4 : r.copy_move_analysis = some cm)
    (h5 : r.noise_analysis = some nz) (h6 : r.histogram_analysis = some hg)
    (h7 : r.blockchain_analysis = some bc) :
    calculate_weighted_score r =
      (35/100) * ai.ai_score + (20/100) * md.metadata_score
        + (15/100) * comp.compression_score + (10/100) * cm.copy_move_score
        + (10/100) * nz.noise_score + (5/100) * hg.histogram_score
        + (5/100) * bc.blockchain_score := by
  simp only [calculate_weighted_score, weight_step, h1, h2, h3, h4, h5, h6, h7,
    Option.map_some']
  norm_num
  ring

/-- When neither override is critical, `_apply_insurance_rules` follows
the weighted-score thresholds of Rule 4 (with `int()` truncation). -/
theorem apply_rules_threshold (d : AIDecision) (fr : FraudDecision) (w : ℚ)
    (h1 : d.is_critical = false) (h2 : fr.is_critical = false) :
    (MINIMUM_AUTHENTIC_SCORE ≤ w →
        (apply_insurance_rules d fr w).result = "AUTHENTIC" ∧
          (apply_insurance_rules d fr w).confidence = min 95 (pyTrunc w)) ∧
      (SUSPICIOUS_THRESHOLD ≤ w ∧ w < MINIMUM_AUTHENTIC_SCORE →
        (apply_insurance_rules d fr w).result = "SUSPICIOUS" ∧
          (apply_insurance_rules d fr w).confidence = pyTrunc w ∧
          (apply_insurance_rules d fr w).requires_human_review = true) ∧
      (w < SUSPICIOUS_THRESHOLD →
        (apply_insurance_rules d fr w).result = "NON_AUTHENTIC" ∧
          (apply_insurance_rules d fr w).confidence = max 10 (pyTrunc (100 - w))) := by
  have hc1 : ¬(d.is_critical = true ∧ d.result = "NON_AUTHENTIC") := by simp [h1]
  have hc2 : ¬ fr.is_critical = true := by simp [h2]
  unfold apply_insurance_rules
  rw [if_neg hc1, if_neg hc2]
  simp only [h1, Bool.false_and, Bool.false_eq_true, if_false, and_true]
  refine ⟨fun h75 => ?_, fun h5075 => ?_, fun h50 => ?_⟩
  · rw [if_pos h75]
    exact ⟨rfl, rfl⟩
  · rw [if_neg (not_le.mpr h5075.2), if_pos h5075.1]
    refine ⟨rfl, rfl, ?_⟩
    by_cases h3 : 3 ≤ fr.suspicious_flags.length + d.indicators.length
    · simp [h3]
    · simp [h3]
  · have hs : ¬ SUSPICIOUS_THRESHOLD ≤ w := not_le.mpr h50
    have hm : ¬ MINIMUM_AUTHENTIC_SCORE ≤ w := by
      intro h
      refine hs ?_
      unfold SUSPICIOUS_THRESHOLD
      unfold MINIMUM_AUTHENTIC_SCORE at h
      linarith
    rw [if_neg hm, if_neg hs]
    exact ⟨rfl, rfl⟩

/-- The AI decision is non-critical (PASSED) whenever the confidence is
below threshold, `ai_detected` is false and there are fewer than two AI
indicators. -/
theorem evaluate_ai_content_passed (ai : AIResult)
    (hconf : ai.ai_confidence < CRITICAL_AI_CONFIDENCE_THRESHOLD)
    (hdet : ai.ai_detected = false) (hind : ai.ai_indicators.length < 2) :
    evaluate_ai_content ai =
      { is_critical := false
        result := "PASSED"
        reason := "No significant AI generation indicators"
        indicators := ai.ai_indicators } := by
  unfold evaluate_ai_content
  rw [if_neg (not_le.mpr hconf), if_neg ?_]
  rintro (h | h)
  · rw [hdet] at h
    exact Bool.false_ne_true h
  · omega

/-- C3 (amended): when the AI override does not fire, the AI evaluation
is not even marked suspicious (`ai_detected` false, fewer than two AI
indicators) and no fraud critical flag triggers, the verdict follows the
weighted-score thresholds: at or above 75 AUTHENTIC with confidence
`min(95, int(score))`; in [50,75) SUSPICIOUS with confidence
`int(score)` and human review; below 50 NON_AUTHENTIC with confidence
`max(10, int(100 - score))`. -/
theorem C3_threshold_classification (r : AnalysisResults) (log : List AuditLogEntry)
    (hconf : (r.ai_analysis.getD {}).ai_confidence < CRITICAL_AI_CONFIDENCE_THRESHOLD)
    (hdet : (r.ai_analysis.getD {}).ai_detected = false)
    (hind : (r.ai_analysis.getD {}).ai_indicators.length < 2)
    (hmd : (r.metadata_analysis.getD {}).suspicious_indicators.any mentions_editing_software = false)
    (hcm : (r.copy_move_analysis.getD {}).copy_move_detected = false) :
    (MINIMUM_AUTHENTIC_SCORE ≤ calculate_weighted_score r →
        (determine_authenticity r log).1.authenticity_result = "AUTHENTIC" ∧
          (determine_authenticity r log).1.confidence_score =
            min 95 (pyTrunc (calculate_weighted_score r))) ∧
      (SUSPICIOUS_THRESHOLD ≤ calculate_weighted_score r ∧
          calculate_weighted_score r < MINIMUM_AUTHENTIC_SCORE →
        (determine_authenticity r log).1.authenticity_result = "SUSPICIOUS" ∧
          (determine_authenticity r log).1.confidence_score =
            pyTrunc (calculate_weighted_score r) ∧
          (determine_authenticity r log).1.requires_human_review = true) ∧
      (calculate_weighted_score r < SUSPICIOUS_THRESHOLD →
        (determine_authenticity r log).1.authenticity_result = "NON_AUTHENTIC" ∧
          (determine_authenticity r log).1.confidence_score =
            max 10 (pyTrunc (100 - calculate_weighted_score r))) := by
  have hAI := evaluate_ai_content_passed _ hconf hdet hind
  have hFC : fraud_critical_flags r = [] := by
    unfold fraud_critical_flags
    rw [hmd, hcm]
    simp
  have hFcrit : (evaluate_fraud_indicators r).is_critical = false := by
    have := evaluate_fraud_indicators_critical r
    rw [hFC] at this
    simp at this
    exact this
  have key := apply_rules_threshold (evaluate_ai_content (r.ai_analysis.getD {}))
    (evaluate_fraud_indicators r) (calculate_weighted_score r)
    (by rw [hAI]) hFcrit
  have hres : (determine_authenticity r log).1.authenticity_result =
      (apply_insurance_rules (evaluate_ai_content (r.ai_analysis.getD {}))
        (evaluate_fraud_indicators r) (calculate_weighted_score r)).result := rfl
  have hcon : (determine_authenticity r log).1.confidence_score =
      (apply_insurance_rules (evaluate_ai_content (r.ai_analysis.getD {}))
        (evaluate_fraud_indicators r) (calculate_weighted_score r)).confidence := rfl
  have hrev : (determine_authenticity r log).1.requires_human_review =
      (apply_insurance_rules (evaluate_ai_content (r.ai_analysis.getD {}))
        (evaluate_fraud_indicators r) (calculate_weighted_score r)).requires_human_review := rfl
  rw [hres, hcon, hrev]
  exact ⟨fun h => (key.1 h), fun h => (key.2.1 h), fun h => (key.2.2 h)⟩

/-- All-100 input with `ai_detected = true` but `ai_confidence = 0`,
used by the C3 counterexample. -/
def C3_cex_ai : AIResult := { ai_detected := true, ai_score := 100 }

/-- Analysis-results dict of the C3 counterexample. -/
def C3_cex_input : AnalysisResults :=
  pipeline_analysis_results { metadata_score := 100 } { compression_score := 100 }
    { copy_move_score := 100 } { noise_score := 100 } { histogram_score := 100 }
    { blockchain_score := 100 } C3_cex_ai

/-- C3 counterexample: the claim's hypotheses hold (AI override off,
no fraud override) and the weighted score is 100 ≥ 75, yet the verdict
is SUSPICIOUS with confidence 100 — not AUTHENTIC with confidence
min(95, 100) — because `ai_detected = true` adds the critical flag
SUSPICIOUS_AI_CONTENT, which blocks Rule 4's AUTHENTIC branch. -/
theorem C3_threshold_counterexample :
    (C3_cex_input.ai_analysis.getD {}).ai_confidence < CRITICAL_AI_CONFIDENCE_THRESHOLD ∧
      (C3_cex_input.metadata_analysis.getD {}).suspicious_indicators.any mentions_editing_software = false ∧
      (C3_cex_input.copy_move_analysis.getD {}).copy_move_detected = false ∧
      MINIMUM_AUTHENTIC_SCORE ≤ calculate_weighted_score C3_cex_input ∧
      (determine_authenticity C3_cex_input []).1.authenticity_result = "SUSPICIOUS" ∧
      (determine_authenticity C3_cex_input []).1.confidence_score = 100 := by
  have hw : calculate_weighted_score C3_cex_input = 100 := by
    rw [weighted_score_all_present C3_cex_input _ _ _ _ _ _ _ rfl rfl rfl rfl rfl rfl rfl]
    norm_num [C3_cex_ai]
  have hAI : evaluate_ai_content (C3_cex_input.ai_analysis.getD {}) =
      { is_critical := true
        result := "SUSPICIOUS"
        reason := "Multiple AI indicators detected"
        indicators := []
        compliance_note := "Requires human expert review per EU AI Act requirements" } := by
    show evaluate_ai_content C3_cex_ai = _
    unfold evaluate_ai_content C3_cex_ai
    rw [if_neg (by norm_num [CRITICAL_AI_CONFIDENCE_THRESHOLD]), if_pos (Or.inl rfl)]
  have hFC : fraud_critical_flags C3_cex_input = [] := by
    unfold fraud_critical_flags
    norm_num [C3_cex_input, pipeline_analysis_results]
  have hFcrit : (evaluate_fraud_indicators C3_cex_input).is_critical = false := by
    have := evaluate_fraud_indicators_critical C3_cex_input
    rw [hFC] at this
    simp at this
    exact this
  have hFnc : ¬ (evaluate_fraud_indicators C3_cex_input).is_critical = true := by
    simp [hFcrit]
  have hres : (determine_authenticity C3_cex_input []).1.authenticity_result =
      (apply_insurance_rules (evaluate_ai_content (C3_cex_input.ai_analysis.getD {}))
        (evaluate_fraud_indicators C3_cex_input) (calculate_weighted_score C3_cex_input)).result := rfl
  have hcon : (determine_authenticity C3_cex_input []).1.confidence_score =
      (apply_insurance_rules (evaluate_ai_content (C3_cex_input.ai_analysis.getD {}))
        (evaluate_fraud_indicators C3_cex_input) (calculate_weighted_score C3_cex_input)).confidence := rfl
  have happ : (apply_insurance_rules (evaluate_ai_content (C3_cex_input.ai_analysis.getD {}))
      (evaluate_fraud_indicators C3_cex_input) (calculate_weighted_score C3_cex_input)).result = "SUSPICIOUS" ∧
      (apply_insurance_rules (evaluate_ai_content (C3_cex_input.ai_analysis.getD {}))
        (evaluate_fraud_indicators C3_cex_input) (calculate_weighted_score C3_cex_input)).confidence = 100 := by
    rw [hAI, hw]
    unfold apply_insurance_rules
    rw [if_neg (by simp), if_neg hFnc]
    norm_num [MINIMUM_AUTHENTIC_SCORE, SUSPICIOUS_THRESHOLD, pyTrunc, Int.tdiv_one]
  refine ⟨by norm_num [C3_cex_input, pipeline_analysis_results, C3_cex_ai,
      CRITICAL_AI_CONFIDENCE_THRESHOLD],
    by norm_num [C3_cex_input, pipeline_analysis_results],
    by norm_num [C3_cex_input, pipeline_analysis_results],
    by rw [hw]; norm_num [MINIMUM_AUTHENTIC_SCORE],
    by rw [hres]; exact happ.1,
    by rw [hcon]; exact happ.2⟩

/-- All-100 input with no AI signal, used by the C3 witness. -/
def C3_wit_input : AnalysisResults :=
  pipeline_analysis_results { metadata_score := 100 } { compression_score := 100 }
    { copy_move_score := 90 } { noise_score := 100 } { histogram_score := 100 }
    { blockchain_score := 100 } { ai_score := 100 }

/-- C3 witness: the amended theorem at a concrete input whose weighted
score is 99 ≥ 75 gives AUTHENTIC with confidence min(95, 99) = 95. -/
theorem C3_threshold_classification_witness :
    (determine_authenticity C3_wit_input []).1.authenticity_result = "AUTHENTIC" ∧
      (determine_authenticity C3_wit_input []).1.confidence_score = 95 := by
  have hw : calculate_weighted_score C3_wit_input = 99 := by
    rw [weighted_score_all_present C3_wit_input _ _ _ _ _ _ _ rfl rfl rfl rfl rfl rfl rfl]
    norm_num
  have key := (C3_threshold_classification C3_wit_input []
    (by norm_num [C3_wit_input, pipeline_analysis_results, CRITICAL_AI_CONFIDENCE_THRESHOLD])
    (by norm_num [C3_wit_input, pipeline_analysis_results])
    (by norm_num [C3_wit_input, pipeline_analysis_results])
    (by norm_num [C3_wit_input, pipeline_analysis_results])
    (by norm_num [C3_wit_input, pipeline_analysis_results])).1
    (by rw [hw]; norm_num [MINIMUM_AUTHENTIC_SCORE])
  refine ⟨key.1, ?_⟩
  rw [key.2, hw]
  show min 95 (pyTrunc 99) = 95
  simp [pyTrunc, Int.tdiv_one]

/-! ## C6 -/

/-- C6: every invocation appends exactly one audit entry; after N
invocations the log is the old log followed by the N new entries in
order (so pre-existing entries are untouched and unreordered) and its
length grew by exactly N. -/
theorem C6_audit_trail (rs : List AnalysisResults) (log : List AuditLogEntry) :
    (∀ r, (determine_authenticity r log).2 = log ++ [decision_entry r]) ∧
      run_batch rs log = log ++ rs.map decision_entry ∧
      (run_batch rs log).length = log.length + rs.length := by
  have h : ∀ rs : List AnalysisResults, ∀ log : List AuditLogEntry,
      run_batch rs log = log ++ rs.map decision_entry := by
    intro rs
    induction rs with
    | nil => intro log; simp [run_batch]
    | cons r rs ih =>
      intro log
      have hstep : run_batch (r :: rs) log = run_batch rs (log ++ [decision_entry r]) := rfl
      rw [hstep, ih (log ++ [decision_entry r])]
      simp
  refine ⟨fun r => rfl, h rs log, ?_⟩
  rw [h rs log]
  simp

/-! ## C7 -/

/-- C7 (amended): on internal errors, metadata, compression, noise,
histogram and AI analyzers return their degraded score together with the
error text as the sole indicator; the copy-move detector also degrades
(to the neutral score 50) but returns no error text at all — its error
output does not depend on the caught exception. -/
theorem C7_error_paths (e : String) :
    (extract_exif_metadata_error e).suspicious_indicators = ["Error reading metadata: " ++ e] ∧
      (extract_exif_metadata_error e).metadata_score = 0 ∧
      (analyze_jpeg_compression_error e).recompression_indicators = ["Error analyzing compression: " ++ e] ∧
      (analyze_jpeg_compression_error e).compression_score = 0 ∧
      (analyze_noise_patterns_error e).artificial_indicators = ["Error analyzing noise: " ++ e] ∧
      (analyze_noise_patterns_error e).noise_score = 0 ∧
      (analyze_pixel_histogram_error e).histogram_indicators = ["Error analyzing histogram: " ++ e] ∧
      (analyze_pixel_histogram_error e).histogram_score = 0 ∧
      (detect_ai_generated_images_error e).ai_indicators = ["Error in AI detection: " ++ e] ∧
      (detect_ai_generated_images_error e).ai_score = 50 ∧
      (detect_copy_move_error e).copy_move_score = 50 ∧
      detect_copy_move_error e = detect_copy_move_error ("") :=
  ⟨rfl, rfl, rfl, rfl, rfl, rfl, rfl, rfl, rfl, rfl, rfl, rfl⟩

/-- C7 counterexample: the copy-move detector's error path discards the
caught exception — its result for a concrete decode failure is
identical to its result for the empty error message and carries no
indicator field, so the error text is not returned as an indicator. -/
theorem C7_copy_move_counterexample :
    detect_copy_move_error ("image decode failed") = detect_copy_move_error ("") ∧
      (detect_copy_move_error ("image decode failed")).copy_move_score = 50 :=
  ⟨rfl, rfl⟩

/-! ## C8 -/

/-- C8 (amended): the compression analyzer flags exactly three
conditions — artifact density above 0.1, compression ratio (file size
over pixel area) BELOW 0.1 (heavy compression means a small ratio), and
estimated quality below 70 — and its score is 100 minus 25 per
triggered indicator, floored at 0. -/
theorem C8_compression_flags (fs : ℚ) (rows cols arts : ℕ) :
    (("High blocking artifact density detected" ∈
        (analyze_jpeg_compression fs rows cols arts).recompression_indicators) ↔
      (analyze_jpeg_compression fs rows cols arts).artifact_density > 1/10) ∧
      (("Unusually high compression detected" ∈
          (analyze_jpeg_compression fs rows cols arts).recompression_indicators) ↔
        fs / ((rows : ℚ) * (cols : ℚ)) < 1/10) ∧
      (("Low quality compression suggests editing" ∈
          (analyze_jpeg_compression fs rows cols arts).recompression_indicators) ↔
        (analyze_jpeg_compression fs rows cols arts).estimated_quality < 70) ∧
      (analyze_jpeg_compression fs rows cols arts).compression_score =
        max 0 (100 - ((analyze_jpeg_compression fs rows cols arts).recompression_indicators.length : ℚ) * 25) := by
  simp only [analyze_jpeg_compression]
  split_ifs with h1 h2 h3 h3 h2 h3 h3 <;> simp_all

/-- C8 counterexample: at file size 512 over an 80×80 image the ratio is
0.08, on the LOW side of the 0.1 threshold, and the "Unusually high
compression" flag fires (score 75); at file size 64000 the ratio is 10,
on the high side, and no flag fires (score 100).  The claim's reading —
that the flag fires when the ratio is on the high side of the
threshold — is the reverse of what the code does. -/
theorem C8_compression_counterexample :
    (512 : ℚ) / ((80 : ℚ) * (80 : ℚ)) < 1/10 ∧
      (analyze_jpeg_compression 512 80 80 0).recompression_indicators
        = ["Unusually high compression detected"] ∧
      (analyze_jpeg_compression 512 80 80 0).compression_score = 75 ∧
      (1/10 : ℚ) < (64000 : ℚ) / ((80 : ℚ) * (80 : ℚ)) ∧
      (analyze_jpeg_compression 64000 80 80 0).recompression_indicators = [] ∧
      (analyze_jpeg_compression 64000 80 80 0).compression_score = 100 := by
  norm_num [analyze_jpeg_compression, pyTrunc, Int.tdiv_one]

/-- C8 witness: the amended flag conditions evaluated at the low-ratio
input. -/
theorem C8_compression_flags_witness :
    (("Unusually high compression detected" ∈
        (analyze_jpeg_compression 512 80 80 0).recompression_indicators) ↔
      (512 : ℚ) / (((80 : ℕ) : ℚ) * ((80 : ℕ) : ℚ)) < 1/10) ∧
      (analyze_jpeg_compression 512 80 80 0).compression_score =
        max 0 (100 - ((analyze_jpeg_compression 512 80 80 0).recompression_indicators.length : ℚ) * 25) :=
  ⟨(C8_compression_flags 512 80 80 0).2.1, (C8_compression_flags 512 80 80 0).2.2.2⟩

/-! ## C9 -/

/-- C9: an ELA mean above the fixed threshold 15 classifies the image
Manipulated; at or below 15 it classifies Authentic with a certainty
never below 30. -/
theorem C9_ela_threshold (m s hv ed : ℚ) :
    (m > 15 → (ela_classify m s hv ed).result = "Manipulated") ∧
      (m ≤ 15 → (ela_classify m s hv ed).result = "Authentic" ∧
        30 ≤ (ela_classify m s hv ed).certainty) := by
  simp only [ela_classify]
  constructor
  · intro h
    rw [if_pos h]
  · intro h
    rw [if_neg (not_lt.mpr h)]
    exact ⟨rfl, le_max_left 30 _⟩

/-- C9 witness: mean 20 is Manipulated; mean 5 is Authentic with
certainty at least 30. -/
theorem C9_ela_threshold_witness :
    (ela_classify 20 10 5 0).result = "Manipulated" ∧
      (ela_classify 5 10 5 0).result = "Authentic" ∧
      30 ≤ (ela_classify 5 10 5 0).certainty := by
  refine ⟨(C9_ela_threshold 20 10 5 0).1 (by norm_num), ?_, ?_⟩
  · exact ((C9_ela_threshold 5 10 5 0).2 (by norm_num)).1
  · exact ((C9_ela_threshold 5 10 5 0).2 (by norm_num)).2

/-! ## C10 -/

/-- C10: for every input built by the `/analyze` pipeline (which never
includes an `overall_score` key), the audit entry appended by
`determine_authenticity` records `weighted_score = 0` — the log reads
`overall_score` with default 0, so the actual weighted score is never
recorded. -/
theorem C10_audit_weighted_zero (md : MetadataResult) (comp : CompressionResult)
    (cm : CopyMoveResult) (nz : NoiseResult) (hg : HistogramResult)
    (bc : BlockchainResult) (ai : AIResult) (log : List AuditLogEntry) :
    (determine_authenticity (pipeline_analysis_results md comp cm nz hg bc ai) log).2
        = log ++ [decision_entry (pipeline_analysis_results md comp cm nz hg bc ai)] ∧
      (decision_entry (pipeline_analysis_results md comp cm nz hg bc ai)).weighted_score = 0 ∧
      (pipeline_analysis_results md comp cm nz hg bc ai).overall_score = none :=
  ⟨rfl, rfl, rfl⟩

end ImgAuth
